import Mathlib

/-
  Shallow embedding of src/backend/app.py (a Flask service that lists and
  auto-answers tasks against an upstream REST API).

  JSON values are modelled by the inductive type JVal; Python dicts are
  association lists with first-key-wins lookup (Python dicts never hold a
  duplicate key, so lists produced from real requests are duplicate-free).
  Python exceptions are modelled with Except: a computation that can raise
  returns Except Unit (or Except String where the message is observable).
  Numbers are modelled as integers (the routes only ever use ints).
  HTTP traffic is modelled by oracle records (Net, TasksNet) giving, for each
  outbound call, either a network fault (RequestException, carrying the error
  text) or a status code with a parsed JSON body.
-/

inductive JVal where
  | null
  | bool (b : Bool)
  | num (n : Int)
  | str (s : String)
  | arr (xs : List JVal)
  | obj (kvs : List (String × JVal))

-- Python equality as used by the source (== between JSON-ish values).
mutual

def eqJ : JVal → JVal → Bool
  | .null, .null => true
  | .bool a, .bool b => a == b
  | .num a, .num b => a == b
  | .str a, .str b => a == b
  | .arr xs, .arr ys => eqJList xs ys
  | .obj xs, .obj ys => eqJKVList xs ys
  | _, _ => false

def eqJList : List JVal → List JVal → Bool
  | [], [] => true
  | x :: xs, y :: ys => eqJ x y && eqJList xs ys
  | _, _ => false

def eqJKVList : List (String × JVal) → List (String × JVal) → Bool
  | [], [] => true
  | (k, v) :: xs, (l, w) :: ys => k == l && eqJ v w && eqJKVList xs ys
  | _, _ => false

end

/-- Python truthiness of a JSON value. -/
def truthy : JVal → Bool
  | .null => false
  | .bool b => b
  | .num n => n != 0
  | .str s => s != ""
  | .arr xs => !xs.isEmpty
  | .obj kvs => !kvs.isEmpty

/-- dict.get(k, d) on an association list known to be a dict. -/
def alistGetD (kvs : List (String × JVal)) (k : String) (d : JVal) : JVal :=
  match kvs.lookup k with
  | some v => v
  | none => d

/-- v.get(k, d): attribute access .get exists only on dicts; anything else
raises AttributeError. -/
def pyDictGet (v : JVal) (k : String) (d : JVal) : Except Unit JVal :=
  match v with
  | .obj kvs => .ok (alistGetD kvs k d)
  | _ => .error ()

/-- Iteration (for x in v): lists yield their items, strings their characters,
dicts their keys; other values raise TypeError. -/
def pyIter : JVal → Except Unit (List JVal)
  | .arr xs => .ok xs
  | .str s => .ok (s.data.map (fun c => JVal.str (String.mk [c])))
  | .obj kvs => .ok (kvs.map (fun p => JVal.str p.1))
  | _ => .error ()

-- Python repr of a JSON value (container rendering follows the usual
-- list/dict display; only scalar cases are exercised by the claims).
mutual

def pyRepr : JVal → String
  | .null => "None"
  | .bool true => "True"
  | .bool false => "False"
  | .num n => toString n
  | .str s => "\x27" ++ s ++ "\x27"
  | .arr xs => "[" ++ String.intercalate ", " (pyReprList xs) ++ "]"
  | .obj kvs => "\x7b" ++ String.intercalate ", " (pyReprKV kvs) ++ "\x7d"

def pyReprList : List JVal → List String
  | [] => []
  | x :: xs => pyRepr x :: pyReprList xs

def pyReprKV : List (String × JVal) → List String
  | [] => []
  | (k, v) :: xs => ("\x27" ++ k ++ "\x27: " ++ pyRepr v) :: pyReprKV xs

end

/-- Python str() of a JSON value: strings unchanged, everything else as repr. -/
def pyStr : JVal → String
  | .str s => s
  | v => pyRepr v

/-- Substring test (the Python operator in on two strings). -/
def strContains (s sub : String) : Bool :=
  (s.splitOn sub).length > 1

/- ---------- answer synthesis (prepare_answer_for_question) ---------- -/

/-- One step of re.sub with pattern <[^<]+?> at a position just after a <:
lazily consume at least one character that is not <, then require >.
Returns the remainder after the matched > when the tag matches. -/
def scanTag : List Char → Option (List Char)
  | [] => none
  | c :: rest =>
    if c = '<' then none
    else
      match rest with
      | '>' :: r => some r
      | _ => scanTag rest

/-- Left-to-right scan removing every leftmost non-overlapping match of
<[^<]+?> (fuel bounds recursion; it is always sufficient below). -/
def stripGo : Nat → List Char → List Char
  | 0, cs => cs
  | fuel + 1, [] =>
    -- fuel is unused on the empty list
    (fun _ => []) fuel
  | fuel + 1, c :: rest =>
    if c = '<' then
      match scanTag rest with
      | some rem => stripGo fuel rem
      | none => c :: stripGo fuel rest
    else c :: stripGo fuel rest

/-- re.sub(r..., removal of angle-bracket tags) as the source applies it. -/
def stripTags (s : String) : String :=
  String.mk (stripGo (s.data.length + 1) s.data)

/-- The list comprehension filtering options whose key k maps to a truthy
value; raises when an element does not support .get. -/
def pyFilterTruthyKey (k : String) : List JVal → Except Unit (List JVal)
  | [] => .ok []
  | o :: rest =>
    match pyDictGet o k JVal.null with
    | .error e => .error e
    | .ok c =>
      match pyFilterTruthyKey k rest with
      | .error e => .error e
      | .ok r => .ok (if truthy c then o :: r else r)

/-- The comprehension collecting s.get of key value for each element. -/
def pyValuesList : List JVal → Except Unit (List JVal)
  | [] => .ok []
  | s :: rest =>
    match pyDictGet s "value" JVal.null with
    | .error e => .error e
    | .ok v =>
      match pyValuesList rest with
      | .error e => .error e
      | .ok r => .ok (v :: r)

/-- The enumerate-based comprehension keeping value fields at odd indices. -/
def pyOddValues (i : Nat) : List JVal → Except Unit (List JVal)
  | [] => .ok []
  | it :: rest =>
    match pyDictGet it "value" JVal.null with
    | .error e => .error e
    | .ok v =>
      match pyOddValues (i + 1) rest with
      | .error e => .error e
      | .ok r => .ok (if i % 2 = 1 then v :: r else r)

/-- Generic fallback map: each option key to its nested answer flag
(False when the value is not a dict or lacks the key). -/
def genericAnswerMap : List (String × JVal) → List (String × JVal)
  | [] => []
  | (k, v) :: rest =>
    (k,
      match v with
      | .obj m => alistGetD m "answer" (JVal.bool false)
      | _ => JVal.bool false) :: genericAnswerMap rest

/-- multiple_choice branch of prepare_answer_for_question. -/
def synthMultipleChoice (q : List (String × JVal)) : Except Unit JVal :=
  let options := alistGetD q "options" (JVal.arr [])
  match pyIter options with
  | .error e => .error e
  | .ok os =>
    match pyFilterTruthyKey "correct" os with
    | .error e => .error e
    | .ok correct =>
      match correct with
      | o :: _ =>
        (match pyDictGet o "id" JVal.null with
         | .error e => .error e
         | .ok idv => .ok (JVal.obj [(pyStr idv, JVal.bool true)]))
      | [] =>
        if truthy options then
          match os with
          | o :: _ =>
            (match pyDictGet o "id" JVal.null with
             | .error e => .error e
             | .ok idv => .ok (JVal.obj [(pyStr idv, JVal.bool true)]))
          | [] => .error ()
        else .ok (JVal.obj [])

/-- order-sentences branch. -/
def synthOrderSentences (q : List (String × JVal)) : Except Unit JVal := do
  let opts := alistGetD q "options" (JVal.obj [])
  let sentences ← pyDictGet opts "sentences" JVal.null
  if truthy sentences then do
    let ss ← pyIter sentences
    let vs ← pyValuesList ss
    pure (JVal.arr vs)
  else pure (JVal.arr [])

/-- fill-words branch. -/
def synthFillWords (q : List (String × JVal)) : Except Unit JVal :=
  let opts := alistGetD q "options" (JVal.obj [])
  match pyDictGet opts "phrase" (JVal.arr []) with
  | .error e => .error e
  | .ok phrase =>
    if truthy phrase then
      match pyIter phrase with
      | .error e => .error e
      | .ok its =>
        match pyOddValues 0 its with
        | .error e => .error e
        | .ok vs => .ok (JVal.arr vs)
    else .ok (JVal.arr [])

/-- text_ai / essay / text branch. -/
def synthText (q : List (String × JVal)) : Except Unit JVal := do
  let comment := alistGetD q "comment" JVal.null
  let txt ←
    if truthy comment then pure comment
    else do
      let t ← pyDictGet (alistGetD q "options" (JVal.obj [])) "text" JVal.null
      pure (if truthy t then t else JVal.str "")
  match txt with
  | .str s =>
    let clean := (stripTags s).trim
    pure (JVal.obj [("0", JVal.str (if clean = "" then "Resposta automática" else clean))])
  | _ => .error ()

/-- cloud branch. -/
def synthCloud (q : List (String × JVal)) : Except Unit JVal :=
  pyDictGet (alistGetD q "options" (JVal.obj [])) "ids" (JVal.arr [])

/-- fill-letters branch; the membership test answer in options follows the
Python operator (dict keys, list elements, substring on strings), and
indexing a list or string by the string key raises TypeError. -/
def synthFillLetters (q : List (String × JVal)) : Except Unit JVal :=
  match q.lookup "options" with
  | none => .ok (JVal.obj [])
  | some ov =>
    match ov with
    | .obj kvs =>
      match kvs.lookup "answer" with
      | some av => .ok av
      | none => .ok (JVal.obj [])
    | .arr xs => if xs.any (fun x => eqJ x (JVal.str "answer")) then .error () else .ok (JVal.obj [])
    | .str s => if strContains s "answer" then .error () else .ok (JVal.obj [])
    | _ => .error ()

/-- Unknown-type fallback branch. -/
def synthGeneric (q : List (String × JVal)) : Except Unit JVal :=
  match alistGetD q "options" JVal.null with
  | .obj kvs => .ok (JVal.obj (genericAnswerMap kvs))
  | _ => .ok (JVal.obj [])

/-- The body of the try block in prepare_answer_for_question: dispatch on the
declared question type (a non-string type falls to the generic branch just as
an unknown string does). -/
def synthAnswer (q : List (String × JVal)) : Except Unit JVal :=
  match alistGetD q "type" JVal.null with
  | .str "multiple_choice" => synthMultipleChoice q
  | .str "order-sentences" => synthOrderSentences q
  | .str "fill-words" => synthFillWords q
  | .str "text_ai" => synthText q
  | .str "essay" => synthText q
  | .str "text" => synthText q
  | .str "cloud" => synthCloud q
  | .str "fill-letters" => synthFillLetters q
  | _ => synthGeneric q

structure AnswerTriple where
  question_id : JVal
  question_type : JVal
  answer : JVal

/-- prepare_answer_for_question: the result dict is created with the question
id and type before the try block; the except handler replaces only the answer
field with an empty map. -/
def prepareAnswerForQuestion (q : List (String × JVal)) : AnswerTriple :=
  { question_id := alistGetD q "id" JVal.null
    question_type := alistGetD q "type" JVal.null
    answer :=
      match synthAnswer q with
      | .ok a => a
      | .error _ => JVal.obj [] }

/- ---------- task submission (process_one_task_sync) ---------- -/

/-- One Task Outcome dict. A field of value none is absent from the dict;
some JVal.null is the Python value None. -/
structure Outcome where
  success : Bool
  message : String
  task_id : Option JVal
  result : Option JVal
  processing_time : Option Int

/-- The outbound HTTP calls the submitter and the task routes can make. -/
inductive Call where
  | getTask (taskId : String)
  | postAnswer (taskId : String) (payload : JVal)

/-- Oracle for the submission flow: per call, a network fault (with the
error text) or a status code and parsed JSON body. -/
structure Net where
  getTask : String → Except String (Nat × JVal)
  postAnswer : String → JVal → Except String (Nat × JVal)

/-- requests raise_for_status raises exactly for 4xx and 5xx codes. -/
def isHttpError (st : Nat) : Bool :=
  400 ≤ st && st < 600

/-- str of the HTTPError raised by raise_for_status (text abstracted; no
claim observes it beyond being a message). -/
def httpErrorMessage (st : Nat) : String :=
  "HTTP error: " ++ toString st

/-- Replace the value at a key, else append: Python dict assignment. -/
def upsert (kvs : List (String × JVal)) (k : String) (v : JVal) : List (String × JVal) :=
  if (kvs.lookup k).isSome then
    kvs.map (fun p => if p.1 = k then (k, v) else p)
  else kvs ++ [(k, v)]

/-- The answers-payload loop: skip info questions, otherwise store the
prepared triple under str(question_id); a non-dict question raises. -/
def buildAnswers (acc : List (String × JVal)) : List JVal → Except Unit (List (String × JVal))
  | [] => .ok acc
  | qv :: rest =>
    match qv with
    | .obj qm =>
      if eqJ (alistGetD qm "type" JVal.null) (JVal.str "info") then
        buildAnswers acc rest
      else
        buildAnswers
          (upsert acc (pyStr (prepareAnswerForQuestion qm).question_id)
            (JVal.obj
              [("question_id", (prepareAnswerForQuestion qm).question_id),
               ("question_type", (prepareAnswerForQuestion qm).question_type),
               ("answer", (prepareAnswerForQuestion qm).answer)]))
          rest
    | _ => .error ()

/-- A failure outcome carrying the task id (the shape every except branch of
process_one_task_sync returns). -/
def failOutcome (msg : String) (tid : JVal) : Outcome :=
  { success := false, message := msg, task_id := some tid, result := none, processing_time := none }

/-- process_one_task_sync. The randomized sleep length is determinized by the
rnd parameter (random.randint: raises ValueError when the range is empty,
otherwise some value inside the inclusive range — here rnd picks it).
Returns the outcome together with the list of outbound calls performed. -/
def processOneTaskSync (net : Net) (_token : JVal) (taskObj : List (String × JVal))
    (timeMin timeMax : Int) (isDraft : Bool) (rnd : Nat) : Outcome × List Call :=
  let taskId := alistGetD taskObj "id" JVal.null
  if !truthy taskId then
    ({ success := false, message := "task sem id", task_id := some JVal.null,
       result := none, processing_time := none }, [])
  else
    let tid := pyStr taskId
    match net.getTask tid with
    | .error e => (failOutcome e taskId, [.getTask tid])
    | .ok (status, taskInfo) =>
      if isHttpError status then
        (failOutcome (httpErrorMessage status) taskId, [.getTask tid])
      else
        match pyDictGet taskInfo "questions" (JVal.arr []) with
        | .error _ => (failOutcome "AttributeError" taskId, [.getTask tid])
        | .ok qsv =>
          match pyIter qsv with
          | .error _ => (failOutcome "TypeError" taskId, [.getTask tid])
          | .ok qs =>
            match buildAnswers [] qs with
            | .error _ => (failOutcome "AttributeError" taskId, [.getTask tid])
            | .ok answers =>
              let secMin := 60 * max 1 timeMin
              let secMax := 60 * max 1 timeMax
              if secMax < secMin then
                (failOutcome "ValueError" taskId, [.getTask tid])
              else
                let processing := secMin + Int.ofNat (rnd % (secMax - secMin + 1).toNat)
                let payload := JVal.obj
                  [("answers", JVal.obj answers),
                   ("final", JVal.bool (!isDraft)),
                   ("status", JVal.str (if isDraft then "draft" else "submitted"))]
                match net.postAnswer tid payload with
                | .error e => (failOutcome e taskId, [.getTask tid, .postAnswer tid payload])
                | .ok (st2, rbody) =>
                  if isHttpError st2 then
                    (failOutcome (httpErrorMessage st2) taskId, [.getTask tid, .postAnswer tid payload])
                  else
                    ({ success := true, message := "Enviado", task_id := some taskId,
                       result := some rbody, processing_time := some processing },
                     [.getTask tid, .postAnswer tid payload])

/- ---------- batch orchestration (/complete) ---------- -/

/-- max_workers = min(6, max(1, len(tasks))): the pool size the batch
orchestrator creates. -/
def maxWorkers (n : Nat) : Nat :=
  min 6 (max 1 n)

/-- One batch element. A non-dict element makes process_one_task_sync raise
(its own except handler re-raises while formatting the log line), so the
future surfaces the exception and the orchestrator appends a failure outcome
that has no task_id key and performs no call. -/
def runOneTask (net : Net) (token : JVal) (timeMin timeMax : Int) (isDraft : Bool) (rnd : Nat)
    (t : JVal) : Outcome × List Call :=
  match t with
  | .obj tm => processOneTaskSync net token tm timeMin timeMax isDraft rnd
  | _ =>
    ({ success := false, message := "AttributeError", task_id := none,
       result := none, processing_time := none }, [])

/-- The worker fan-out. as_completed delivers outcomes in completion order;
the embedding determinizes to input order (every property proved below is
insensitive to the order, each outcome being self-identifying). -/
def runTasks (net : Net) (token : JVal) (timeMin timeMax : Int) (isDraft : Bool) (rnd : Nat) :
    List JVal → List Outcome × List Call
  | [] => ([], [])
  | t :: rest =>
    let r := runOneTask net token timeMin timeMax isDraft rnd t
    let rr := runTasks net token timeMin timeMax isDraft rnd rest
    (r.1 :: rr.1, r.2 ++ rr.2)

/-- The orchestrator over a batch of task dicts. -/
def completeTasksCore (net : Net) (token : JVal) (timeMin timeMax : Int) (isDraft : Bool)
    (rnd : Nat) (ts : List (List (String × JVal))) : List Outcome × List Call :=
  runTasks net token timeMin timeMax isDraft rnd (ts.map JVal.obj)

/-- The JSON failure body used by the 400 and 500 responses. -/
def errBody (msg : String) : JVal :=
  JVal.obj [("success", JVal.bool false), ("message", JVal.str msg)]

/-- Oracle for the read path: the single room-listing call and one
task-listing call per parameter set. -/
structure TasksNet where
  rooms : Except String (Nat × JVal)
  todo : List (String × JVal) → Except String (Nat × JVal)

/-- The base query parameters with the two filter flags: the expired preset
sets expired_only true and filter_expired false; every other filter value
(the default pending included) sets expired_only false and filter_expired
true. -/
def buildTaskParams (taskFilter : JVal) : List (String × JVal) :=
  [("limit", JVal.num 100), ("offset", JVal.num 0), ("is_exam", JVal.str "false"),
   ("with_answer", JVal.str "true"), ("is_essay", JVal.str "false"),
   ("with_apply_moment", JVal.str "true")] ++
  (if eqJ taskFilter (JVal.str "expired") then
    [("expired_only", JVal.str "true"), ("filter_expired", JVal.str "false")]
  else
    [("expired_only", JVal.str "false"), ("filter_expired", JVal.str "true")])

/-- The per-target parameter set. -/
def fullParams (taskFilter target : JVal) : List (String × JVal) :=
  buildTaskParams taskFilter ++ [("publication_target", target)]

/-- set.add with Python equality, determinized to insertion order. -/
def addTarget (acc : List JVal) (v : JVal) : List JVal :=
  if acc.any (fun x => eqJ x v) then acc else acc ++ [v]

/-- The room loop: for each room dict, str(id) and the raw name join the
target set; a non-dict room entry raises on its membership test. -/
def extractTargetsLoop (acc : List JVal) : List JVal → Except Unit (List JVal)
  | [] => .ok acc
  | room :: rest =>
    match room with
    | .obj kvs =>
      let acc1 :=
        match kvs.lookup "id" with
        | some idv => addTarget acc (JVal.str (pyStr idv))
        | none => acc
      let acc2 :=
        match kvs.lookup "name" with
        | some nv => addTarget acc1 nv
        | none => acc1
      extractTargetsLoop acc2 rest
    | _ => .error ()

/-- Publication-target extraction from the room-listing body: for each room
dict, str(id) and the raw name are added to the set. Non-dict room entries
raise (TypeError for the membership test) and the rooms value must be a
list to iterate dict-style rooms faithfully. -/
def extractTargets (roomsJson : JVal) : Except Unit (List JVal) := do
  let rl ← pyDictGet roomsJson "rooms" (JVal.arr [])
  match rl with
  | .arr rs => extractTargetsLoop [] rs
  | _ => .error ()

/-- Lines 125-131 of the source: what one 200 response contributes to
tasks_found. A list payload is appended whole; a dict payload with a tasks
key appends that value (extend iterates it; a non-iterable raises
TypeError); anything else appends nothing. -/
def payloadTasksE : JVal → Except Unit (List JVal)
  | .arr xs => .ok xs
  | .obj kvs =>
    match kvs.lookup "tasks" with
    | some tv => pyIter tv
    | none => .ok []
  | _ => .ok []

/-- The per-target loop: a network fault is logged and skipped, a non-200
status is silently skipped (no raise_for_status here); only the TypeError of
extend escapes to the outer handler. -/
def collectTodo (net : TasksNet) (taskFilter : JVal) (acc : List JVal) :
    List JVal → Except Unit (List JVal)
  | [] => .ok acc
  | t :: rest =>
    match net.todo (fullParams taskFilter t) with
    | .error _ => collectTodo net taskFilter acc rest
    | .ok (st, payload) =>
      if st = 200 then
        match payloadTasksE payload with
        | .error _ => .error ()
        | .ok ext => collectTodo net taskFilter (acc ++ ext) rest
      else collectTodo net taskFilter acc rest

/-- What a single target contributes to the final list: nothing on a network
fault or a non-200 status, its payload tasks otherwise. -/
def targetContrib (net : TasksNet) (taskFilter target : JVal) : Except Unit (List JVal) :=
  match net.todo (fullParams taskFilter target) with
  | .error _ => .ok []
  | .ok (st, payload) => if st = 200 then payloadTasksE payload else .ok []

def exValD (e : Except Unit (List JVal)) : List JVal :=
  match e with
  | .ok l => l
  | .error _ => []

/-- The concatenation of all target contributions, failing targets skipped. -/
def collectedTasks (net : TasksNet) (taskFilter : JVal) (ts : List JVal) : List JVal :=
  (ts.map (fun t => exValD (targetContrib net taskFilter t))).flatten

/-- The /tasks route handler: token check, room listing (raise_for_status,
so a fault or a 4xx/5xx status aborts into the outer except as a 500),
target extraction, then the tolerant per-target loop. -/
def tasksGeneric (net : TasksNet) (data : List (String × JVal)) : Nat × JVal :=
  let token := alistGetD data "auth_token" JVal.null
  let taskFilter := alistGetD data "filter" (JVal.str "pending")
  if !truthy token then
    (400, errBody "Token é obrigatório")
  else
    match net.rooms with
    | .error e => (500, errBody e)
    | .ok (st, body) =>
      if isHttpError st then
        (500, errBody (httpErrorMessage st))
      else
        match extractTargets body with
        | .error _ => (500, errBody "TypeError")
        | .ok ts =>
          if ts.isEmpty then
            (200, JVal.obj
              [("success", JVal.bool true), ("tasks", JVal.arr []), ("count", JVal.num 0),
               ("message", JVal.str "Nenhuma sala encontrada")])
          else
            match collectTodo net taskFilter [] ts with
            | .error _ => (500, errBody "TypeError")
            | .ok found =>
              (200, JVal.obj
                [("success", JVal.bool true), ("tasks", JVal.arr found),
                 ("count", JVal.num found.length)])

/- ---------- spec-side helpers and shared lemmas ---------- -/

/-- Whether an option dict carries a truthy correct flag. -/
def correctFlagged (m : List (String × JVal)) : Bool :=
  truthy (alistGetD m "correct" JVal.null)

/-- The value fields of phrase items at odd indices (index parity counted
from i), the pure description of the fill-words comprehension. -/
def oddVals (i : Nat) : List (List (String × JVal)) → List JVal
  | [] => []
  | m :: rest =>
    if i % 2 = 1 then alistGetD m "value" JVal.null :: oddVals (i + 1) rest
    else oddVals (i + 1) rest

/-- The task_id every outcome of process_one_task_sync carries: the id field
when truthy, Python None otherwise. -/
def taskIdOf (t : List (String × JVal)) : JVal :=
  if truthy (alistGetD t "id" JVal.null) then alistGetD t "id" JVal.null else JVal.null

/-- An oracle on which every call faults; used where no call may happen. -/
def noNet : Net :=
  { getTask := fun _ => .error "unreachable", postAnswer := fun _ _ => .error "unreachable" }

lemma pyFilterTruthyKey_map_obj (k : String) (ms : List (List (String × JVal))) :
    pyFilterTruthyKey k (ms.map JVal.obj) =
      .ok ((ms.filter (fun m => truthy (alistGetD m k JVal.null))).map JVal.obj) := by
  induction ms with
  | nil => rfl
  | cons m rest ih =>
    simp only [List.map_cons, pyFilterTruthyKey, pyDictGet, ih, List.filter_cons]
    cases h : truthy (alistGetD m k JVal.null) <;> simp [h]

lemma pyOddValues_map_obj (ms : List (List (String × JVal))) : ∀ i,
    pyOddValues i (ms.map JVal.obj) = .ok (oddVals i ms) := by
  induction ms with
  | nil => intro i; rfl
  | cons m rest ih =>
    intro i
    simp only [List.map_cons, pyOddValues, pyDictGet, ih, oddVals]

lemma oddVals_length (ms : List (List (String × JVal))) : ∀ i,
    (oddVals i ms).length = (ms.length + i % 2) / 2 := by
  induction ms with
  | nil => intro i; simp only [oddVals, List.length_nil]; omega
  | cons m rest ih =>
    intro i
    by_cases h : i % 2 = 1
    · simp only [oddVals, if_pos h, List.length_cons, ih (i + 1)]
      omega
    · simp only [oddVals, if_neg h, List.length_cons, ih (i + 1)]
      omega

lemma oddVals_enumFrom (ms : List (List (String × JVal))) : ∀ i,
    oddVals i ms =
      ((List.enumFrom i ms).filter (fun p => p.1 % 2 = 1)).map
        (fun p => alistGetD p.2 "value" JVal.null) := by
  induction ms with
  | nil => intro i; rfl
  | cons m rest ih =>
    intro i
    by_cases h : i % 2 = 1 <;>
      simp [oddVals, List.enumFrom_cons, List.filter_cons, h, ih]

lemma processOneTaskSync_task_id (net : Net) (token : JVal) (t : List (String × JVal))
    (tmin tmax : Int) (d : Bool) (rnd : Nat) :
    (processOneTaskSync net token t tmin tmax d rnd).1.task_id = some (taskIdOf t) := by
  unfold processOneTaskSync
  by_cases h : truthy (alistGetD t "id" JVal.null)
  · have hrhs : taskIdOf t = alistGetD t "id" JVal.null := by simp [taskIdOf, h]
    rw [hrhs]
    simp only [h, Bool.not_true, Bool.false_eq_true, if_false]
    repeat' split
    all_goals rfl
  · simp [taskIdOf, h]

lemma completeTasksCore_spec (net : Net) (token : JVal) (tmin tmax : Int) (d : Bool)
    (rnd : Nat) : ∀ ts : List (List (String × JVal)),
    (completeTasksCore net token tmin tmax d rnd ts).1.length = ts.length ∧
    List.Forall₂ (fun o t => o.task_id = some (taskIdOf t))
      (completeTasksCore net token tmin tmax d rnd ts).1 ts := by
  intro ts
  induction ts with
  | nil => exact ⟨rfl, List.Forall₂.nil⟩
  | cons t rest ih =>
    unfold completeTasksCore at *
    simp only [List.map_cons, runTasks, runOneTask, List.length_cons]
    exact ⟨by rw [ih.1], List.Forall₂.cons (processOneTaskSync_task_id ..) ih.2⟩

lemma collectTodo_ok (net : TasksNet) (tf : JVal) : ∀ (ts : List JVal) (acc : List JVal),
    (∀ t ∈ ts, targetContrib net tf t ≠ Except.error ()) →
    collectTodo net tf acc ts = .ok (acc ++ collectedTasks net tf ts) := by
  intro ts
  induction ts with
  | nil => intro acc _; simp [collectTodo, collectedTasks]
  | cons t rest ih =>
    intro acc hall
    have hrest : ∀ u ∈ rest, targetContrib net tf u ≠ Except.error () := by
      intro u hu; exact hall u (List.mem_cons_of_mem _ hu)
    have hhead := hall t (List.mem_cons_self t rest)
    unfold collectTodo
    cases hcall : net.todo (fullParams tf t) with
    | error e =>
      rw [ih acc hrest]
      simp [collectedTasks, targetContrib, hcall, exValD]
    | ok p =>
      obtain ⟨st, payload⟩ := p
      dsimp only
      by_cases hst : st = 200
      · subst hst
        cases hpl : payloadTasksE payload with
        | error e =>
          exfalso
          apply hhead
          simp [targetContrib, hcall, hpl]
        | ok ext =>
          rw [if_pos rfl]
          show collectTodo net tf (acc ++ ext) rest = _
          rw [ih (acc ++ ext) hrest]
          simp [collectedTasks, targetContrib, hcall, hpl, exValD, List.append_assoc]
      · rw [if_neg hst, ih acc hrest]
        simp [collectedTasks, targetContrib, hcall, hst, exValD]

/-- Claim C1, counterexample to the claim as stated: batching the single task
reference with id equal to the empty string produces the one outcome whose
task_id is Python None, which differs from the id field of every input task
reference (the only id field is the empty string). -/
theorem c1_claim_counterexample :
    ((completeTasksCore noNet (JVal.str "tok") 1 1 false 0 [[("id", JVal.str "")]]).1.map
        Outcome.task_id = [some JVal.null]) ∧ JVal.null ≠ JVal.str "" :=
  ⟨rfl, fun h => nomatch h⟩

/-- Claim C1 (amended): a batch over N task dicts (N at least 1) yields
exactly N outcomes, and each outcome carries task_id equal to the id field
of its task when that id is present and truthy, and a null task_id
otherwise — regardless of how the individual submissions fare. -/
theorem c1_batch_outcome_task_ids (net : Net) (token : JVal) (tmin tmax : Int) (d : Bool)
    (rnd : Nat) (ts : List (List (String × JVal))) (_h : 1 ≤ ts.length) :
    (completeTasksCore net token tmin tmax d rnd ts).1.length = ts.length ∧
    List.Forall₂ (fun o t => o.task_id = some (taskIdOf t))
      (completeTasksCore net token tmin tmax d rnd ts).1 ts :=
  completeTasksCore_spec net token tmin tmax d rnd ts

/-- Claim C1, witness at a concrete one-task batch. -/
theorem c1_batch_outcome_task_ids_witness :
    (completeTasksCore noNet (JVal.str "tok") 1 1 false 0 [[("id", JVal.str "t1")]]).1.length = 1 ∧
    List.Forall₂ (fun o t => o.task_id = some (taskIdOf t))
      (completeTasksCore noNet (JVal.str "tok") 1 1 false 0 [[("id", JVal.str "t1")]]).1
      [[("id", JVal.str "t1")]] :=
  c1_batch_outcome_task_ids noNet (JVal.str "tok") 1 1 false 0 [[("id", JVal.str "t1")]]
    (by decide)

/-- Claim C3: a task reference whose id is absent or falsy makes the task
submitter return the immediate failure outcome — success false, the message
task sem id, a null task_id — with no network call performed. -/
theorem c3_missing_id_immediate_failure (net : Net) (token : JVal)
    (t : List (String × JVal)) (tmin tmax : Int) (d : Bool) (rnd : Nat)
    (h : ¬ truthy (alistGetD t "id" JVal.null)) :
    processOneTaskSync net token t tmin tmax d rnd =
      ({ success := false, message := "task sem id", task_id := some JVal.null,
         result := none, processing_time := none }, []) := by
  simp only [Bool.not_eq_true] at h
  unfold processOneTaskSync
  simp [h]

/-- Claim C3, witness at the empty-string id. -/
theorem c3_missing_id_immediate_failure_witness :
    processOneTaskSync noNet (JVal.str "tok") [("id", JVal.str "")] 1 3 false 0 =
      ({ success := false, message := "task sem id", task_id := some JVal.null,
         result := none, processing_time := none }, []) :=
  c3_missing_id_immediate_failure noNet (JVal.str "tok") [("id", JVal.str "")] 1 3 false 0
    (by decide)

/-- Claim C4: whenever the synthesis body raises, prepare_answer_for_question
still returns the triple for that question, with its question id and type and
an empty-map answer — the failure never escapes the function. -/
theorem c4_synthesis_failure_degrades (q : List (String × JVal))
    (h : synthAnswer q = .error ()) :
    prepareAnswerForQuestion q =
      { question_id := alistGetD q "id" JVal.null,
        question_type := alistGetD q "type" JVal.null,
        answer := JVal.obj [] } := by
  unfold prepareAnswerForQuestion
  rw [h]

/-- Claim C4, witness: a cloud question whose options is a number makes the
synthesis body raise, and the returned triple degrades to the empty map. -/
theorem c4_synthesis_failure_degrades_witness :
    synthAnswer [("type", JVal.str "cloud"), ("options", JVal.num 5)] = .error () ∧
    prepareAnswerForQuestion [("type", JVal.str "cloud"), ("options", JVal.num 5)] =
      { question_id := JVal.null, question_type := JVal.str "cloud",
        answer := JVal.obj [] } :=
  ⟨rfl, c4_synthesis_failure_degrades _ rfl⟩

/-- Claim C5: for a batch of N tasks with N at least 1, the worker pool size
min(6, max(1, N)) equals min(6, N); it is positive and never exceeds 6. -/
theorem c5_worker_pool_size (n : Nat) (h : 1 ≤ n) :
    maxWorkers n = min 6 n ∧ 0 < maxWorkers n ∧ maxWorkers n ≤ 6 := by
  unfold maxWorkers
  omega

/-- Claim C5, witness at a batch of 10 tasks (pool capped at 6). -/
theorem c5_worker_pool_size_witness :
    maxWorkers 10 = min 6 10 ∧ 0 < maxWorkers 10 ∧ maxWorkers 10 ≤ 6 :=
  c5_worker_pool_size 10 (by decide)

/-- Claim C8: the expired preset sets expired_only to true and filter_expired
to false, while every other filter value (the default pending included) sets
expired_only to false and filter_expired to true. -/
theorem c8_filter_flag_presets :
    (buildTaskParams (JVal.str "expired")).lookup "expired_only" = some (JVal.str "true") ∧
    (buildTaskParams (JVal.str "expired")).lookup "filter_expired" = some (JVal.str "false") ∧
    ∀ f : JVal, eqJ f (JVal.str "expired") = false →
      (buildTaskParams f).lookup "expired_only" = some (JVal.str "false") ∧
      (buildTaskParams f).lookup "filter_expired" = some (JVal.str "true") := by
  refine ⟨rfl, rfl, ?_⟩
  intro f h
  unfold buildTaskParams
  rw [h]
  exact ⟨rfl, rfl⟩

/-- Claim C8, witness at the default pending preset. -/
theorem c8_filter_flag_presets_witness :
    (buildTaskParams (JVal.str "pending")).lookup "expired_only" = some (JVal.str "false") ∧
    (buildTaskParams (JVal.str "pending")).lookup "filter_expired" = some (JVal.str "true") :=
  c8_filter_flag_presets.2.2 (JVal.str "pending") rfl

/-- Claim C9: on every branch of the answer synthesizer, the exception branch
included, the returned triple keeps the question id and type of the input
question; only the answer field varies. -/
theorem c9_triple_preserves_id_and_type (q : List (String × JVal)) :
    (prepareAnswerForQuestion q).question_id = alistGetD q "id" JVal.null ∧
    (prepareAnswerForQuestion q).question_type = alistGetD q "type" JVal.null :=
  ⟨rfl, rfl⟩

/-- Claim C2: for a multiple_choice question whose options are a list of
option dicts, the answer is the singleton map on the first flagged-correct
option id; with no flagged option but a non-empty list, on the first option
id; with an empty option list, the empty map. -/
theorem c2_multiple_choice_answer (q : List (String × JVal))
    (ms : List (List (String × JVal)))
    (htype : alistGetD q "type" JVal.null = JVal.str "multiple_choice")
    (hopts : alistGetD q "options" (JVal.arr []) = JVal.arr (ms.map JVal.obj)) :
    (∀ m rest, ms.filter correctFlagged = m :: rest →
      (prepareAnswerForQuestion q).answer =
        JVal.obj [(pyStr (alistGetD m "id" JVal.null), JVal.bool true)]) ∧
    (ms.filter correctFlagged = [] → ∀ m rest, ms = m :: rest →
      (prepareAnswerForQuestion q).answer =
        JVal.obj [(pyStr (alistGetD m "id" JVal.null), JVal.bool true)]) ∧
    (ms = [] → (prepareAnswerForQuestion q).answer = JVal.obj []) := by
  refine ⟨?_, ?_, ?_⟩
  · intro m rest hf
    have hf2 : ms.filter (fun m => truthy (alistGetD m "correct" JVal.null)) = m :: rest := hf
    simp [prepareAnswerForQuestion, synthAnswer, htype, synthMultipleChoice, hopts,
      pyIter, pyFilterTruthyKey_map_obj, hf2, pyDictGet]
  · intro hf m rest hms
    subst hms
    have hf2 :
        ((m :: rest).filter (fun m => truthy (alistGetD m "correct" JVal.null))) = [] := hf
    have hfk := pyFilterTruthyKey_map_obj "correct" (m :: rest)
    rw [hf2] at hfk
    simp only [List.map_cons, List.map_nil] at hfk
    simp [prepareAnswerForQuestion, synthAnswer, htype, synthMultipleChoice, hopts,
      pyIter, hfk, pyDictGet, truthy]
  · intro hms
    subst hms
    simp [prepareAnswerForQuestion, synthAnswer, htype, synthMultipleChoice, hopts,
      pyIter, pyFilterTruthyKey, pyDictGet, truthy]

/-- A concrete multiple_choice question used to witness claim C2. -/
def sampleMCOptions : List (List (String × JVal)) :=
  [[("id", JVal.str "optA")], [("id", JVal.str "optB"), ("correct", JVal.bool true)]]

def sampleMCQuestion : List (String × JVal) :=
  [("type", JVal.str "multiple_choice"),
   ("options", JVal.arr (sampleMCOptions.map JVal.obj))]

/-- Claim C2, witness: with the second option flagged correct, the answer is
the singleton map on its id. -/
theorem c2_multiple_choice_answer_witness :
    (prepareAnswerForQuestion sampleMCQuestion).answer =
      JVal.obj [("optB", JVal.bool true)] :=
  (c2_multiple_choice_answer sampleMCQuestion sampleMCOptions rfl rfl).1
    [("id", JVal.str "optB"), ("correct", JVal.bool true)] [] rfl

/-- Claim C6: for a fill-words question whose options.phrase is a list of N
item dicts, the answer is the list of the value fields at odd indices, in
order, and it has exactly N / 2 entries. -/
theorem c6_fill_words_odd_values (q om : List (String × JVal))
    (phm : List (List (String × JVal)))
    (htype : alistGetD q "type" JVal.null = JVal.str "fill-words")
    (hopts : alistGetD q "options" (JVal.obj []) = JVal.obj om)
    (hphrase : alistGetD om "phrase" (JVal.arr []) = JVal.arr (phm.map JVal.obj)) :
    (prepareAnswerForQuestion q).answer = JVal.arr (oddVals 0 phm) ∧
    (oddVals 0 phm).length = phm.length / 2 ∧
    oddVals 0 phm =
      ((List.enumFrom 0 phm).filter (fun p => p.1 % 2 = 1)).map
        (fun p => alistGetD p.2 "value" JVal.null) := by
  refine ⟨?_, ?_, oddVals_enumFrom phm 0⟩
  · cases phm with
    | nil =>
      simp [prepareAnswerForQuestion, synthAnswer, htype, synthFillWords, hopts,
        pyDictGet, hphrase, truthy, oddVals]
    | cons m0 rest0 =>
      have hov := pyOddValues_map_obj (m0 :: rest0) 0
      simp only [List.map_cons] at hov
      simp [prepareAnswerForQuestion, synthAnswer, htype, synthFillWords, hopts,
        pyDictGet, hphrase, truthy, pyIter, hov]
  · have := oddVals_length phm 0
    simpa using this

/-- A concrete fill-words question used to witness claim C6. -/
def sampleFWPhrase : List (List (String × JVal)) :=
  [[("value", JVal.str "w0")], [("value", JVal.str "w1")], [("value", JVal.str "w2")]]

def sampleFWOptions : List (String × JVal) :=
  [("phrase", JVal.arr (sampleFWPhrase.map JVal.obj))]

def sampleFWQuestion : List (String × JVal) :=
  [("type", JVal.str "fill-words"), ("options", JVal.obj sampleFWOptions)]

/-- Claim C6, witness: a three-item phrase yields the single odd-index value
(floor of 3 / 2 is one entry). -/
theorem c6_fill_words_odd_values_witness :
    (prepareAnswerForQuestion sampleFWQuestion).answer = JVal.arr [JVal.str "w1"] ∧
    (oddVals 0 sampleFWPhrase).length = 1 :=
  ⟨(c6_fill_words_odd_values sampleFWQuestion sampleFWOptions sampleFWPhrase rfl rfl rfl).1,
   (c6_fill_words_odd_values sampleFWQuestion sampleFWOptions sampleFWPhrase rfl rfl rfl).2.1⟩

/-- Claim C7: with a truthy token, a room-listing failure (network fault or a
4xx/5xx status) makes the whole /tasks request answer 500, while per-target
task-listing failures are skipped: with the room listing healthy, a non-empty
target set, and every surviving per-target contribution well formed, the
request answers 200 with the concatenation of the successful targets'
results — targets whose call faults or returns non-200 contribute nothing
yet do not abort the request. -/
theorem c7_rooms_abort_targets_skip (net : TasksNet) (data : List (String × JVal))
    (htok : truthy (alistGetD data "auth_token" JVal.null) = true) :
    (∀ e, net.rooms = .error e → tasksGeneric net data = (500, errBody e)) ∧
    (∀ st b, net.rooms = .ok (st, b) → isHttpError st = true →
      tasksGeneric net data = (500, errBody (httpErrorMessage st))) ∧
    (∀ st b ts, net.rooms = .ok (st, b) → isHttpError st = false →
      extractTargets b = .ok ts → ts ≠ [] →
      (∀ t ∈ ts,
        targetContrib net (alistGetD data "filter" (JVal.str "pending")) t ≠
          Except.error ()) →
      tasksGeneric net data =
        (200, JVal.obj
          [("success", JVal.bool true),
           ("tasks",
             JVal.arr (collectedTasks net (alistGetD data "filter" (JVal.str "pending")) ts)),
           ("count",
             JVal.num
               (collectedTasks net (alistGetD data "filter" (JVal.str "pending")) ts).length)])) := by
  refine ⟨?_, ?_, ?_⟩
  · intro e hrooms
    unfold tasksGeneric
    rw [hrooms]
    simp [htok]
  · intro st b hrooms hbad
    unfold tasksGeneric
    rw [hrooms]
    simp [htok, hbad]
  · intro st b ts hrooms hgood hext hne hall
    have hcoll := collectTodo_ok net (alistGetD data "filter" (JVal.str "pending")) ts [] hall
    rw [List.nil_append] at hcoll
    have hempty : ts.isEmpty = false := by
      cases ts with
      | nil => exact absurd rfl hne
      | cons a l => rfl
    unfold tasksGeneric
    rw [hrooms]
    simp [htok, hgood, hext, hempty, hcoll]

/-- A concrete room-listing body (two rooms) used to witness claim C7. -/
def wRoomsBody : JVal :=
  JVal.obj [("rooms", JVal.arr [JVal.obj [("id", JVal.num 1)], JVal.obj [("id", JVal.num 2)]])]

/-- A concrete oracle used to witness claim C7: the room listing succeeds,
the task listing faults for publication target 1 and succeeds with one task
for every other target. -/
def wTasksNet : TasksNet :=
  { rooms := .ok (200, wRoomsBody),
    todo := fun ps =>
      if eqJ (alistGetD ps "publication_target" JVal.null) (JVal.str "1") then .error "conn"
      else .ok (200, JVal.arr [JVal.obj [("id", JVal.num 99)]]) }

/-- Claim C7, witness: one of two targets faults, yet the request answers 200
with the surviving target's single task. -/
theorem c7_rooms_abort_targets_skip_witness :
    tasksGeneric wTasksNet [("auth_token", JVal.str "t")] =
      (200, JVal.obj
        [("success", JVal.bool true),
         ("tasks", JVal.arr [JVal.obj [("id", JVal.num 99)]]),
         ("count", JVal.num 1)]) := by
  have hall : ∀ t ∈ [JVal.str "1", JVal.str "2"],
      targetContrib wTasksNet
        (alistGetD [("auth_token", JVal.str "t")] "filter" (JVal.str "pending")) t ≠
        Except.error () := by
    intro t ht
    rcases List.mem_cons.mp ht with rfl | ht2
    · exact fun h => nomatch h
    · rcases List.mem_cons.mp ht2 with rfl | ht3
      · exact fun h => nomatch h
      · cases ht3
  have h :=
    (c7_rooms_abort_targets_skip wTasksNet [("auth_token", JVal.str "t")] rfl).2.2
      200 wRoomsBody [JVal.str "1", JVal.str "2"] rfl rfl rfl
      (fun hcontra => nomatch hcontra) hall
  exact h.trans rfl

